import Mathlib

/-!
Shallow embedding of the aws-k8s-tester configuration core:

* `ec2config` (src/unnamed/part_000): the `Config` data model, the
  environment-variable overlay `updateFromEnvs`, the finalizer
  `validateAndSetDefaults` with its helpers (`genTag`, `randString`),
  and the persistence pair `syncStore` / `loadStore`.
* `eks/ng/configmap.go`: the ConfigMap reconciliation loop
  (`ccmLoop` / `createConfigMapRun`) and the auth document renderer
  (`writeConfigMapAuthDoc`).

External effects (clock, randomness, temp-file allocation, file system,
subprocess outcomes) are passed in explicitly; machine integers are
modelled as `Int` with explicit range checks where the Go standard
library checks them.
-/

namespace Ec2

/-- Go `strconv.ParseBool`: accepts exactly these twelve literals. -/
def goParseBool (s : String) : Option Bool :=
  match s with
  | "1" | "t" | "T" | "true" | "TRUE" | "True" => some true
  | "0" | "f" | "F" | "false" | "FALSE" | "False" => some false
  | _ => none

/-- Numeric value of a decimal digit character. -/
def digitVal (c : Char) : Nat := c.toNat - 48

/-- Decimal value of a digit list (most significant first). -/
def natOfDigits (l : List Char) : Nat :=
  l.foldl (fun a c => a * 10 + digitVal c) 0

/-- Go `strconv.ParseInt(s, 10, 64)`: optional sign, nonempty decimal
digits, value must fit in a signed 64-bit integer. -/
def goParseInt (s : String) : Option Int :=
  let p : Int × List Char :=
    match s.data with
    | '+' :: r => (1, r)
    | '-' :: r => (-1, r)
    | r => (1, r)
  if p.2 ≠ [] ∧ p.2.all Char.isDigit then
    let v : Int := p.1 * (natOfDigits p.2 : Int)
    if -(2 ^ 63) ≤ v ∧ v ≤ 2 ^ 63 - 1 then some v else none
  else none

/-- Duration-unit lookup for `goParseDuration`: the unit at the head of
the list and its multiplier in nanoseconds. -/
def durUnit (l : List Char) : Option (Nat × List Char) :=
  match l with
  | 'n' :: 's' :: r => some (1, r)
  | 'u' :: 's' :: r => some (1000, r)
  | 'm' :: 's' :: r => some (1000000, r)
  | 'm' :: r => some (60000000000, r)
  | 's' :: r => some (1000000000, r)
  | 'h' :: r => some (3600000000000, r)
  | _ => none

/-- Component loop for `goParseDuration`: repeatedly read a digit run
and a unit, accumulating nanoseconds.  Fuel is the input length. -/
def durLoop : Nat → List Char → Nat → Option Nat
  | _, [], acc => some acc
  | 0, _ :: _, _ => none
  | fuel + 1, l, acc =>
    let ds := l.takeWhile Char.isDigit
    let rest := l.dropWhile Char.isDigit
    if ds = [] then none
    else
      match durUnit rest with
      | none => none
      | some (mul, r) => durLoop fuel r (acc + natOfDigits ds * mul)

/-- Go `time.ParseDuration`, restricted to integer components as in the
spec examples ("90s", "5m"); fractional components are not modelled. -/
def goParseDuration (s : String) : Option Int :=
  let p : Int × List Char :=
    match s.data with
    | '+' :: r => (1, r)
    | '-' :: r => (-1, r)
    | r => (1, r)
  if p.2 = ['0'] then some 0
  else
    match durLoop p.2.length p.2 0 with
    | none => none
    | some n => if (n : Int) ≤ 2 ^ 63 - 1 then some (p.1 * n) else none

/-- Character mangling for environment keys: a hyphen becomes an
underscore, everything else is upper-cased. -/
def envKeyChar (c : Char) : Char :=
  if c = '-' then '_' else c.toUpper

/-- Drop a trailing ",omitempty" from a struct tag (the tag option only
ever appears as a suffix in this struct). -/
def stripOmitempty (l : List Char) : List Char :=
  if (",omitempty".data).isSuffixOf l then l.take (l.length - 10) else l

/-- Environment key derived from a json struct tag: strip ",omitempty",
replace hyphens with underscores, upper-case. -/
def envKey (tag : String) : String :=
  ⟨(stripOmitempty tag.data).map envKeyChar⟩

/-- Go `filepath.Join` for two already-clean components. -/
def joinPath (a b : String) : String :=
  if a = "" then b else if b = "" then a else a ++ "/" ++ b

/-- Go `filepath.IsAbs`: the path begins with a slash. -/
def isAbs (p : String) : Bool :=
  match p.data with
  | c :: _ => c = '/'
  | [] => false

/-- Go `filepath.Abs` for clean paths: a rooted path is returned as-is,
anything else is joined onto the working directory. -/
def absPath (cwd p : String) : String :=
  if isAbs p then p else cwd ++ "/" ++ p

/-- Assoc-list update modelling `map[string]string` assignment:
overwrite an existing key, otherwise append. -/
def mapSet (m : List (String × String)) (k v : String) :
    List (String × String) :=
  if m.any (fun p => p.1 = k) then
    m.map (fun p => if p.1 = k then (k, v) else p)
  else m ++ [(k, v)]

/-- EC2 placement (struct `Placement`). -/
structure Placement where
  AvailabilityZone : String
  Tenancy : String
deriving DecidableEq, Repr, Inhabited

/-- EC2 instance state (struct `State`). -/
structure InstState where
  Code : Int
  Name : String
deriving DecidableEq, Repr, Inhabited

/-- EBS volume attachment (struct `EBS`). -/
structure EBS where
  DeleteOnTermination : Bool
  Status : String
  VolumeID : String
deriving DecidableEq, Repr, Inhabited

/-- Block device mapping (struct `BlockDeviceMapping`). -/
structure BlockDeviceMapping where
  DeviceName : String
  EBSVol : EBS
deriving DecidableEq, Repr, Inhabited

/-- Security group association (struct `SecurityGroup`). -/
structure SecurityGroup where
  GroupName : String
  GroupID : String
deriving DecidableEq, Repr, Inhabited

/-- Snapshot of one EC2 instance (struct `Instance`); `LaunchTime` is a
`time.Time`, modelled as an integer timestamp. -/
structure Instance where
  ImageID : String
  InstanceID : String
  InstanceType : String
  KeyName : String
  InstPlacement : Placement
  PrivateDNSName : String
  PrivateIP : String
  PublicDNSName : String
  PublicIP : String
  InstanceState : InstState
  SubnetID : String
  VPCID : String
  BlockDeviceMappings : List BlockDeviceMapping
  EBSOptimized : Bool
  RootDeviceName : String
  RootDeviceType : String
  SecurityGroups : List SecurityGroup
  LaunchTime : Int
deriving DecidableEq, Repr, Inhabited

/-- The `ec2config.Config` struct, fields in declaration order.
`time.Duration` and `time.Time` are integers; `map[string]string` is an
assoc list; the `Instances` map is an `Option` so that a nil map (as
produced by deserialization of an absent field) is distinguishable from
an empty one, which `loadStore` relies on.  Other nil maps/slices are
not distinguished from empty ones. -/
structure Config where
  EnvPrefix : String
  AWSAccountID : String
  AWSRegion : String
  LogLevel : String
  LogOutputs : List String
  LogOutputToUploadPath : String
  LogOutputToUploadPathBucket : String
  LogOutputToUploadPathURL : String
  UploadTesterLogs : Bool
  UploadBucketExpireDays : Int
  Tag : String
  Tags : List (String × String)
  ClusterName : String
  DestroyAfterCreate : Bool
  DestroyWaitTime : Int
  ConfigPath : String
  ConfigPathBucket : String
  ConfigPathURL : String
  UpdatedAt : Int
  ImageID : String
  UserName : String
  Plugins : List String
  InitScript : String
  InitScriptCreated : Bool
  InstanceType : String
  ClusterSize : Int
  KeyName : String
  KeyPath : String
  KeyPathBucket : String
  KeyPathURL : String
  KeyCreateSkip : Bool
  KeyCreated : Bool
  VPCCIDR : String
  VPCID : String
  VPCCreated : Bool
  InternetGatewayID : String
  RouteTableIDs : List String
  SubnetIDs : List String
  SubnetIDToAvailabilityZone : List (String × String)
  IngressRulesTCP : List (String × String)
  SecurityGroupIDs : List String
  AssociatePublicIPAddress : Bool
  VolumeSize : Int
  Instances : Option (List (String × Instance))
  Wait : Bool
  InstanceProfileFilePath : String
  InstanceProfileName : String
  InstanceProfileCreated : Bool
  InstanceProfilePolicyName : String
  InstanceProfilePolicyARN : String
  InstanceProfilePolicy : String
  InstanceProfilePolicyCreated : Bool
  InstanceProfileRoleName : String
  InstanceProfileRoleCreated : Bool
  CustomScript : String
deriving DecidableEq, Repr, Inhabited

/-- The package-level default configuration (`defaultConfig`).
`logutil.DefaultLogLevel` is "info" per the `LogLevel` field comment.
Unlisted fields take the Go zero value. -/
def defaultConfig : Config where
  EnvPrefix := "AWS_K8S_TESTER_EC2_"
  AWSAccountID := ""
  AWSRegion := "us-west-2"
  LogLevel := "info"
  LogOutputs := ["stderr"]
  LogOutputToUploadPath := ""
  LogOutputToUploadPathBucket := ""
  LogOutputToUploadPathURL := ""
  UploadTesterLogs := false
  UploadBucketExpireDays := 2
  Tag := ""
  Tags := []
  ClusterName := ""
  DestroyAfterCreate := false
  DestroyWaitTime := 60000000000
  ConfigPath := ""
  ConfigPathBucket := ""
  ConfigPathURL := ""
  UpdatedAt := 0
  ImageID := "ami-082b5a644766e0e6f"
  UserName := "ec2-user"
  Plugins := ["update-amazon-linux-2", "install-start-docker-amazon-linux-2"]
  InitScript := ""
  InitScriptCreated := false
  InstanceType := "m5.large"
  ClusterSize := 1
  KeyName := ""
  KeyPath := ""
  KeyPathBucket := ""
  KeyPathURL := ""
  KeyCreateSkip := false
  KeyCreated := false
  VPCCIDR := "192.168.0.0/16"
  VPCID := ""
  VPCCreated := false
  InternetGatewayID := ""
  RouteTableIDs := []
  SubnetIDs := []
  SubnetIDToAvailabilityZone := []
  IngressRulesTCP := [("22", "0.0.0.0/0")]
  SecurityGroupIDs := []
  AssociatePublicIPAddress := true
  VolumeSize := 40
  Instances := none
  Wait := true
  InstanceProfileFilePath := ""
  InstanceProfileName := ""
  InstanceProfileCreated := false
  InstanceProfilePolicyName := ""
  InstanceProfilePolicyARN := ""
  InstanceProfilePolicy := ""
  InstanceProfilePolicyCreated := false
  InstanceProfileRoleName := ""
  InstanceProfileRoleCreated := false
  CustomScript := ""

/-! ## Environment-variable overlay (`UpdateFromEnvs`)

`UpdateFromEnvs` copies the receiver (`cc := *cfg`), walks the struct
fields in declaration order, and for each field whose environment
variable (`cfg.EnvPrefix` + mangled json tag) is non-empty parses and
assigns the override on the copy; the copy is written back to the
receiver (`*cfg = cc`) only when every field succeeded.  Each `u*`
combinator below is one arm of the reflection `switch` applied to one
field; the chain lists the fields in declaration order. -/

/-- `reflect.String` arm: assign the value verbatim (cannot fail). -/
def uStr (tag : String) (set : Config → String → Config)
    (env : String → String) (pfx : String) (cc : Config) :
    Except String Config :=
  let sv := env (pfx ++ envKey tag)
  Except.ok (if sv = "" then cc else set cc sv)

/-- `reflect.Bool` arm: `strconv.ParseBool`, error on a bad literal. -/
def uBool (tag : String) (set : Config → Bool → Config)
    (env : String → String) (pfx : String) (cc : Config) :
    Except String Config :=
  let sv := env (pfx ++ envKey tag)
  if sv = "" then Except.ok cc
  else
    match goParseBool sv with
    | some b => Except.ok (set cc b)
    | none =>
      Except.error ("failed to parse " ++ sv ++ " (" ++ pfx ++ envKey tag ++ ")")

/-- `reflect.Int*` arm: `strconv.ParseInt(sv, 10, 64)`. -/
def uInt (tag : String) (set : Config → Int → Config)
    (env : String → String) (pfx : String) (cc : Config) :
    Except String Config :=
  let sv := env (pfx ++ envKey tag)
  if sv = "" then Except.ok cc
  else
    match goParseInt sv with
    | some v => Except.ok (set cc v)
    | none =>
      Except.error ("failed to parse " ++ sv ++ " (" ++ pfx ++ envKey tag ++ ")")

/-- The `DestroyWaitTime` special case of the `reflect.Int*` arm:
`time.ParseDuration`. -/
def uDur (tag : String) (set : Config → Int → Config)
    (env : String → String) (pfx : String) (cc : Config) :
    Except String Config :=
  let sv := env (pfx ++ envKey tag)
  if sv = "" then Except.ok cc
  else
    match goParseDuration sv with
    | some v => Except.ok (set cc v)
    | none =>
      Except.error ("failed to parse " ++ sv ++ " (" ++ pfx ++ envKey tag ++ ")")

/-- Parse a comma-separated `key=value` list into a fresh map; a pair
without exactly one separator is a format error. -/
def parsePairs (sv : String) : Except String (List (String × String)) :=
  (sv.splitOn ",").foldlM
    (fun acc pair =>
      match pair.splitOn "=" with
      | [k, v] => Except.ok (mapSet acc k v)
      | _ =>
        Except.error ("map " ++ sv ++ " has unexpected format (e.g. should be a=b;c;d,e=f"))
    []

/-- `reflect.Map` arm for the two allow-listed fields (`Tags`,
`IngressRulesTCP`): the map is replaced wholesale. -/
def uMap (tag : String) (set : Config → List (String × String) → Config)
    (env : String → String) (pfx : String) (cc : Config) :
    Except String Config :=
  let sv := env (pfx ++ envKey tag)
  if sv = "" then Except.ok cc
  else
    match parsePairs sv with
    | Except.ok m => Except.ok (set cc m)
    | Except.error e => Except.error e

/-- `reflect.Map` arm for a field not on the allow-list. -/
def uMapDeny (tag fieldName : String) (env : String → String)
    (pfx : String) (cc : Config) : Except String Config :=
  let sv := env (pfx ++ envKey tag)
  if sv = "" then Except.ok cc
  else Except.error ("parsing field name " ++ fieldName ++ " not supported")

/-- `reflect.Slice` arm for the three allow-listed fields (`Plugins`,
`SubnetIDs`, `SecurityGroupIDs`): comma-split, replaced wholesale. -/
def uSlice (tag : String) (set : Config → List String → Config)
    (env : String → String) (pfx : String) (cc : Config) :
    Except String Config :=
  let sv := env (pfx ++ envKey tag)
  Except.ok (if sv = "" then cc else set cc (sv.splitOn ","))

/-- `reflect.Slice` arm for a field not on the allow-list. -/
def uSliceDeny (tag fieldName : String) (env : String → String)
    (pfx : String) (cc : Config) : Except String Config :=
  let sv := env (pfx ++ envKey tag)
  if sv = "" then Except.ok cc
  else Except.error ("parsing field name " ++ fieldName ++ " not supported")

/-- `default` arm of the kind switch (hit by the `time.Time` field
`UpdatedAt`): an unsupported kind is a hard error. -/
def uKindDeny (tag : String) (env : String → String) (pfx : String)
    (cc : Config) : Except String Config :=
  let sv := env (pfx ++ envKey tag)
  if sv = "" then Except.ok cc
  else Except.error (pfx ++ envKey tag ++ " is not supported as an env")

/-- The struct's fields in declaration order, each as the overlay step
the reflection loop performs for it. -/
def fieldSteps (env : String → String) (pfx : String) :
    List (Config → Except String Config) :=
  [uStr "env-prefix" (fun c v => { c with EnvPrefix := v }) env pfx,
   uStr "aws-account-id" (fun c v => { c with AWSAccountID := v }) env pfx,
   uStr "aws-region" (fun c v => { c with AWSRegion := v }) env pfx,
   uStr "log-level" (fun c v => { c with LogLevel := v }) env pfx,
   uSliceDeny "log-outputs" "LogOutputs" env pfx,
   uStr "log-output-to-upload-path" (fun c v => { c with LogOutputToUploadPath := v }) env pfx,
   uStr "log-output-to-upload-path-bucket" (fun c v => { c with LogOutputToUploadPathBucket := v }) env pfx,
   uStr "log-output-to-upload-path-url" (fun c v => { c with LogOutputToUploadPathURL := v }) env pfx,
   uBool "upload-tester-logs" (fun c v => { c with UploadTesterLogs := v }) env pfx,
   uInt "upload-bucket-expire-days" (fun c v => { c with UploadBucketExpireDays := v }) env pfx,
   uStr "tag" (fun c v => { c with Tag := v }) env pfx,
   uMap "tags" (fun c v => { c with Tags := v }) env pfx,
   uStr "cluster-name" (fun c v => { c with ClusterName := v }) env pfx,
   uBool "destroy-after-create" (fun c v => { c with DestroyAfterCreate := v }) env pfx,
   uDur "destroy-wait-time,omitempty" (fun c v => { c with DestroyWaitTime := v }) env pfx,
   uStr "config-path" (fun c v => { c with ConfigPath := v }) env pfx,
   uStr "config-path-bucket" (fun c v => { c with ConfigPathBucket := v }) env pfx,
   uStr "config-path-url" (fun c v => { c with ConfigPathURL := v }) env pfx,
   uKindDeny "updated-at" env pfx,
   uStr "image-id" (fun c v => { c with ImageID := v }) env pfx,
   uStr "user-name" (fun c v => { c with UserName := v }) env pfx,
   uSlice "plugins" (fun c v => { c with Plugins := v }) env pfx,
   uStr "init-script" (fun c v => { c with InitScript := v }) env pfx,
   uBool "init-script-created" (fun c v => { c with InitScriptCreated := v }) env pfx,
   uStr "instance-type" (fun c v => { c with InstanceType := v }) env pfx,
   uInt "cluster-size" (fun c v => { c with ClusterSize := v }) env pfx,
   uStr "key-name" (fun c v => { c with KeyName := v }) env pfx,
   uStr "key-path" (fun c v => { c with KeyPath := v }) env pfx,
   uStr "key-path-bucket" (fun c v => { c with KeyPathBucket := v }) env pfx,
   uStr "key-path-url" (fun c v => { c with KeyPathURL := v }) env pfx,
   uBool "key-create-skip" (fun c v => { c with KeyCreateSkip := v }) env pfx,
   uBool "key-created" (fun c v => { c with KeyCreated := v }) env pfx,
   uStr "vpc-cidr" (fun c v => { c with VPCCIDR := v }) env pfx,
   uStr "vpc-id" (fun c v => { c with VPCID := v }) env pfx,
   uBool "vpc-created" (fun c v => { c with VPCCreated := v }) env pfx,
   uStr "internet-gateway-id" (fun c v => { c with InternetGatewayID := v }) env pfx,
   uSliceDeny "route-table-ids" "RouteTableIDs" env pfx,
   uSlice "subnet-ids" (fun c v => { c with SubnetIDs := v }) env pfx,
   uMapDeny "subnet-id-to-availability-zone" "SubnetIDToAvailabilityZone" env pfx,
   uMap "ingress-rules-tcp" (fun c v => { c with IngressRulesTCP := v }) env pfx,
   uSlice "security-group-ids" (fun c v => { c with SecurityGroupIDs := v }) env pfx,
   uBool "associate-public-ip-address" (fun c v => { c with AssociatePublicIPAddress := v }) env pfx,
   uInt "volume-size" (fun c v => { c with VolumeSize := v }) env pfx,
   uMapDeny "instances" "Instances" env pfx,
   uBool "wait" (fun c v => { c with Wait := v }) env pfx,
   uStr "instance-profile-file-path" (fun c v => { c with InstanceProfileFilePath := v }) env pfx,
   uStr "instance-profile-name" (fun c v => { c with InstanceProfileName := v }) env pfx,
   uBool "instance-profile-created" (fun c v => { c with InstanceProfileCreated := v }) env pfx,
   uStr "instance-profile-policy-name" (fun c v => { c with InstanceProfilePolicyName := v }) env pfx,
   uStr "instance-profile-policy-arn" (fun c v => { c with InstanceProfilePolicyARN := v }) env pfx,
   uStr "instance-profile-policy" (fun c v => { c with InstanceProfilePolicy := v }) env pfx,
   uBool "instance-profile-policy-created" (fun c v => { c with InstanceProfilePolicyCreated := v }) env pfx,
   uStr "instance-profile-role-name" (fun c v => { c with InstanceProfileRoleName := v }) env pfx,
   uBool "instance-profile-role-created" (fun c v => { c with InstanceProfileRoleCreated := v }) env pfx,
   uStr "custom-script" (fun c v => { c with CustomScript := v }) env pfx]

/-- The field loop: apply each field's overlay step to the scratch
copy, aborting at the first error. -/
def runSteps : List (Config → Except String Config) → Config →
    Except String Config
  | [], cc => Except.ok cc
  | s :: rest, cc =>
    match s cc with
    | Except.ok c2 => runSteps rest c2
    | Except.error e => Except.error e

/-- `(*Config).UpdateFromEnvs`: overlay environment overrides onto a
scratch copy, field by field in declaration order, returning the copy
on success and the first error otherwise. -/
def updateFromEnvs (cfg : Config) (env : String → String) :
    Except String Config :=
  runSteps (fieldSteps env (Config.EnvPrefix cfg)) cfg

/-- The receiver's state after an `UpdateFromEnvs` call: the scratch
copy is written back (`*cfg = cc`) only on the nil-error return, so on
error the receiver keeps its prior value. -/
def updateFromEnvsApplied (cfg : Config) (env : String → String) : Config :=
  match updateFromEnvs cfg env with
  | Except.ok cc => cc
  | Except.error _ => cfg

/-! ## Finalizer (`ValidateAndSetDefaults`) -/

/-- Modelled from the spec: `plugins.Create` (package
`ec2config/plugins`, absent from src/) renders the init script from the
named plugin fragments plus the custom script fragment. -/
def pluginsCreate (userName customScript : String) (ps : List String) :
    Except String String :=
  Except.ok ("#!/usr/bin/env bash\n# user: " ++ userName ++ "\n"
    ++ String.intercalate "\n" ps ++ "\n" ++ customScript)

/-- Modelled from the spec: the region-to-label lookup
(`pkgaws.RegionToAiport`, absent from src/); recognizes the supported
regions and maps each to its airport label, anything else is
unrecognized. -/
def regionToAiport (r : String) : Option String :=
  match r with
  | "us-west-2" => some "PDX"
  | "us-west-1" => some "SFO"
  | "us-east-1" => some "IAD"
  | "us-east-2" => some "CMH"
  | "ap-northeast-1" => some "NRT"
  | "ap-northeast-2" => some "ICN"
  | "ap-southeast-1" => some "SIN"
  | "eu-west-1" => some "DUB"
  | _ => none

/-- Decimal digit character (`0`-`9`). -/
def decChar (n : Nat) : Char :=
  match n % 10 with
  | 0 => '0' | 1 => '1' | 2 => '2' | 3 => '3' | 4 => '4'
  | 5 => '5' | 6 => '6' | 7 => '7' | 8 => '8' | _ => '9'

/-- Unpadded decimal rendering of a natural number (the `%d` verb),
accumulator style; fuel is any bound above the digit count. -/
def decDigitsCore : Nat → Nat → List Char → List Char
  | 0, _, acc => acc
  | fuel + 1, n, acc =>
    if n < 10 then decChar n :: acc
    else decDigitsCore fuel (n / 10) (decChar (n % 10) :: acc)

/-- The `%d` verb on a natural number. -/
def decString (n : Nat) : List Char := decDigitsCore (n + 1) n []

/-- The `%02d` verb on a natural number. -/
def pad2 (n : Nat) : List Char :=
  if n < 10 then ['0', decChar n] else decString n

/-- `genTag`: tag from the current time bucketed to the hour,
`fmt.Sprintf("ec2-%d%02d%02d%02d", year-2000, month, day, hour)`. -/
def genTag (year month day hour : Nat) : String :=
  "ec2-" ++ ⟨decString (year - 2000) ++ pad2 month ++ pad2 day ++ pad2 hour⟩

/-- Alphabet `ll` used by `randString`. -/
def ll : String := "0123456789abcdefghijklmnopqrstuvwxyz"

/-- `randString(n)`: `n` characters drawn from `ll`; the random source
is an explicit sequence of draws (`rand.Intn(36)` per index). -/
def randString (rnd : Nat → Nat) (n : Nat) : String :=
  ⟨(List.range n).map fun i => ll.data.getD (rnd i % 36) 'a'⟩

/-- External effects consumed by `ValidateAndSetDefaults`: the clock
(`time.Now`, split into the four fields `genTag` reads), the random
source, the two temp-file allocations (`ioutil.TempFile` + `Abs`,
returning an absolute reserved path), `os.TempDir`, and `os.Stat`
success. -/
structure VEnv where
  year : Nat
  month : Nat
  day : Nat
  hour : Nat
  rnd : Nat → Nat
  tempFileConfig : String
  tempFileKey : String
  tempDir : String
  fileExists : String → Bool

/-- The init-script block of `ValidateAndSetDefaults` (runs between the
`ImageID` and `InstanceType` checks): when plugins are declared and the
built flag is unset, render the script, append the pre-existing text,
and set the flag.  On a renderer error the multiple-assignment
`cfg.InitScript, err = plugins.Create(...)` has already overwritten
`InitScript` with the renderer's zero value. -/
def initScriptStep (cfg : Config) : Config × Option String :=
  if 0 < cfg.Plugins.length ∧ ¬cfg.InitScriptCreated then
    match pluginsCreate cfg.UserName cfg.CustomScript cfg.Plugins with
    | Except.error e => ({ cfg with InitScript := "" }, some e)
    | Except.ok s =>
      ({ cfg with InitScript := s ++ "\n" ++ cfg.InitScript,
                  InitScriptCreated := true }, none)
  else (cfg, none)

/-- Tag and cluster-name derivation (lines after the `ClusterSize`
check): both only when currently empty. -/
def deriveNames (ext : VEnv) (airport : String) (cfg : Config) : Config :=
  let c1 := if cfg.Tag = "" then
    { cfg with Tag := genTag ext.year ext.month ext.day ext.hour } else cfg
  if c1.ClusterName = "" then
    { c1 with ClusterName := c1.Tag ++ "-" ++ airport.toLower ++ "-"
        ++ c1.AWSRegion ++ "-" ++ randString ext.rnd 5 }
  else c1

/-- Path and storage-key derivation: config path (allocated when
empty), config bucket key (always), log-upload path (always, appended
to `LogOutputs` unless an identical entry exists), log bucket key
(always), key name (when empty), key bucket key (always), key path
(allocated when empty). -/
def derivePaths (ext : VEnv) (cfg : Config) : Config :=
  let c1 := if cfg.ConfigPath = "" then
    { cfg with ConfigPath := ext.tempFileConfig } else cfg
  let c2 := { c1 with ConfigPathBucket := joinPath c1.ClusterName "ec2config.yaml" }
  let lp := joinPath ext.tempDir (c2.ClusterName ++ ".log")
  let c3 := { c2 with LogOutputToUploadPath := lp }
  let c4 := if c3.LogOutputs.contains lp then c3
    else { c3 with LogOutputs := c3.LogOutputs ++ [lp] }
  let c5 := { c4 with LogOutputToUploadPathBucket := joinPath c4.ClusterName "ec2.log" }
  let c6 := if c5.KeyName = "" then { c5 with KeyName := c5.ClusterName } else c5
  let c7 := { c6 with KeyPathBucket := joinPath c6.ClusterName "ec2.key" }
  if c7.KeyPath = "" then { c7 with KeyPath := ext.tempFileKey } else c7

/-- Instance-profile derivation: when a profile definition file is
configured it must exist, and the profile/role/policy names are
re-derived from the cluster name by fixed suffixing. -/
def deriveProfile (ext : VEnv) (cfg : Config) : Config × Option String :=
  if cfg.InstanceProfileFilePath = "" then (cfg, none)
  else if ext.fileExists cfg.InstanceProfileFilePath then
    let c1 := { cfg with InstanceProfileName := cfg.ClusterName ++ "-instance-profile" }
    let c2 := { c1 with InstanceProfileRoleName := c1.InstanceProfileName ++ "-role" }
    ({ c2 with InstanceProfilePolicyName := c2.InstanceProfileName ++ "-policy" }, none)
  else
    (cfg, some ("instance profile name " ++ cfg.InstanceProfileFilePath
      ++ " does not exist"))

/-- `(*Config).ValidateAndSetDefaults`: the six fail-fast checks with
the init-script block interleaved before the `InstanceType` and
`ClusterSize` checks, then the derivation passes.  The returned
`Config` is the receiver's state after the call (the Go code mutates
the receiver in place, so mutations made before a failing check
survive); the `Option String` is the returned error. -/
def validateAndSetDefaults (ext : VEnv) (cfg : Config) :
    Config × Option String :=
  if cfg.LogOutputs.length = 0 then (cfg, some "EC2 LogOutputs is not specified")
  else if cfg.AWSRegion = "" then (cfg, some "empty AWSRegion")
  else
    match regionToAiport cfg.AWSRegion with
    | none => (cfg, some (cfg.AWSRegion ++ " not found"))
    | some airport =>
      if cfg.UserName = "" then (cfg, some "empty UserName")
      else if cfg.ImageID = "" then (cfg, some "empty ImageID")
      else
        match initScriptStep cfg with
        | (cc, some e) => (cc, some e)
        | (cc, none) =>
          if cc.InstanceType = "" then (cc, some "empty InstanceType")
          else if cc.ClusterSize < 1 then (cc, some "unexpected ClusterSize")
          else deriveProfile ext (derivePaths ext (deriveNames ext airport cc))

/-! ## Persistence store (`Sync` / `Load`)

The YAML encoding is an opaque serialization capability (out of scope
per the spec), so the store is modelled as a map from paths to the
configurations whose serialization is on disk at that path. -/

/-- The on-disk store: path to deserialized configuration. -/
def Store : Type := String → Option Config

/-- `(*Config).Sync`: make the recorded path absolute if needed, stamp
the update time, serialize, and write to the path (owner-only
permission is a file-system attribute, not modelled).  Returns the
receiver's state and the updated store. -/
def syncStore (cwd : String) (now : Int) (cfg : Config) (fs : Store) :
    Config × Store :=
  let c1 := if isAbs cfg.ConfigPath then cfg
    else { cfg with ConfigPath := absPath cwd cfg.ConfigPath }
  let c2 := { c1 with UpdatedAt := now }
  (c2, fun q => if q = c2.ConfigPath then some c2 else fs q)

/-- `Load`: read and deserialize the file at `p`; initialize a nil
instance mapping to an empty one; point the recorded path at `p` and
then at its absolute form.  No defaulting, no validation. -/
def loadStore (cwd : String) (fs : Store) (p : String) :
    Except String Config :=
  match fs p with
  | none => Except.error ("read " ++ p ++ " failed")
  | some c =>
    let c1 := if c.Instances = none then { c with Instances := some [] } else c
    let c2 := if c1.ConfigPath ≠ p then { c1 with ConfigPath := p } else c1
    Except.ok { c2 with ConfigPath := absPath cwd p }

/-! ## ConfigMap reconciliation loop (`createConfigMap`, eks/ng/configmap.go)

Time is in seconds.  The loop body per iteration: check
`time.Since(retryStart) < 5min` at the top; `select` over the stop
channel, the interrupt signal, and a 5-second timer; run
`kubectl apply` under a 15-second context timeout; on a non-nil error
return it at once; otherwise log/record and iterate.  Falling out of
the loop logs success and returns `Sync()`.  The external world per
iteration is an `IterInput`; iteration `i` consumes `env i`. -/

/-- One iteration's external events: whether the stop channel or the
signal channel fires during the 5-second wait, whether the `kubectl`
process itself succeeds, and how long it runs (a run longer than the
15-second context timeout is killed and reports an error). -/
structure IterInput where
  stopc : Bool
  sig : Bool
  cmdOk : Bool
  cmdDur : Nat

/-- Outcome of `createConfigMap`'s loop.  Each constructor carries the
number of apply attempts that were started. -/
inductive CMResult where
  | aborted (attempts : Nat)
  | failed (attempts : Nat)
  | synced (attempts : Nat)
  | fuelOut
deriving DecidableEq, Repr

/-- The retry loop of `createConfigMap`.  `i` counts attempts made so
far, `elapsed` is `time.Since(retryStart)` at the loop top.  Fuel only
bounds the recursion; `ccmLoop_no_fuelOut` shows 61 units can never run
out within the 300-second deadline. -/
def ccmLoop (env : Nat → IterInput) : Nat → Nat → Nat → CMResult
  | 0, _, _ => CMResult.fuelOut
  | fuel + 1, i, elapsed =>
    if elapsed < 300 then
      let inp := env i
      if inp.stopc ∨ inp.sig then CMResult.aborted i
      else
        let effDur := min inp.cmdDur 15
        if inp.cmdOk ∧ inp.cmdDur ≤ 15 then
          ccmLoop env fuel (i + 1) (elapsed + 5 + effDur)
        else CMResult.failed (i + 1)
    else CMResult.synced i

/-- `createConfigMap` from the top of its retry loop. -/
def createConfigMapRun (env : Nat → IterInput) : CMResult :=
  ccmLoop env 61 0 0

/-! ## ConfigMap auth document (`writeConfigMapAuth`) -/

/-- Template text before the `text/template` action. -/
def tplPre : String :=
  "---\napiVersion: v1\nkind: ConfigMap\nmetadata:\n  name: aws-auth\n  namespace: kube-system\ndata:\n  mapRoles: |\n    - rolearn: "

/-- Template text after the `text/template` action. -/
def tplPost : String :=
  "\n      %s\n      groups:\n      - system:bootstrappers\n      - system:nodes\n"

/-- `configMapAuthTempl` (the Go template constant). -/
def configMapAuthTempl : String :=
  tplPre ++ "\x7b\x7b.NGInstanceRoleARN\x7d\x7d" ++ tplPost

/-- `text/template` execution of `configMapAuthTempl` against
`configMapAuth{NGInstanceRoleARN: arn}`: the single action is replaced
by the field's value. -/
def templExecute (arn : String) : String := tplPre ++ arn ++ tplPost

/-- The argument substituted for `%s` after template execution. -/
def userLine : String := "username: system:node:\x7b\x7bEC2PrivateDNSName\x7d\x7d"

/-- Go `fmt.Sprintf` over the verbs that can occur here: `%s` consumes
the next operand (or prints a missing-operand notice), `%%` prints a
percent sign, any other verb prints a bad-verb/missing notice, a
trailing `%` prints a no-verb notice, and leftover operands are
reported at the end. -/
def goSprintf : List Char → List (List Char) → List Char
  | [], args =>
    if args.isEmpty then []
    else "%!(EXTRA ".data
      ++ (String.intercalate ", " (args.map fun a => "string=" ++ (⟨a⟩ : String))).data
      ++ ")".data
  | c :: rest, args =>
    if c = '%' then
      match rest with
      | [] => "%!(NOVERB)".data
      | v :: rest' =>
        if v = 's' then
          match args with
          | a :: args' => a ++ goSprintf rest' args'
          | [] => "%!s(MISSING)".data ++ goSprintf rest' []
        else if v = '%' then '%' :: goSprintf rest' args
        else
          match args with
          | a :: args' =>
            '%' :: '!' :: v :: "(string=".data ++ a ++ ")".data
              ++ goSprintf rest' args'
          | [] => '%' :: '!' :: v :: "(MISSING)".data ++ goSprintf rest' []
    else c :: goSprintf rest args

/-- The document text produced by `writeConfigMapAuth(arn)` (the
function then writes it to a temp file and returns the path; the file
system is not modelled). -/
def writeConfigMapAuthDoc (arn : String) : String :=
  ⟨goSprintf (templExecute arn).data [userLine.data]⟩

/-- The placeholder token the remote side substitutes at bind time. -/
def dnsToken : String := "\x7b\x7bEC2PrivateDNSName\x7d\x7d"

/-- Number of (possibly overlapping) occurrences of `tok` in `l`. -/
def countOcc (tok : List Char) : List Char → Nat
  | [] => 0
  | c :: rest =>
    (if tok.isPrefixOf (c :: rest) then 1 else 0) + countOcc tok rest

/-- Template text between the role ARN and the format verb. -/
def postA : String := "\n      "

/-- Template text after the format verb. -/
def postB : String :=
  "\n      groups:\n      - system:bootstrappers\n      - system:nodes\n"

/-! ## Concrete test inputs -/

/-- A process environment carrying a valid override for an early field
(`AWSAccountID`) and a malformed boolean for a later one
(`UploadTesterLogs`); everything else unset. -/
def cexEnv : String → String := fun k =>
  if k = "AWS_K8S_TESTER_EC2_AWS_ACCOUNT_ID" then "123"
  else if k = "AWS_K8S_TESTER_EC2_UPLOAD_TESTER_LOGS" then "not-a-bool"
  else ""

/-- A concrete external-effect environment for the finalizer. -/
def extDefault : VEnv where
  year := 2019
  month := 1
  day := 2
  hour := 3
  rnd := fun _ => 0
  tempFileConfig := "/tmp/ec2config-a"
  tempFileKey := "/tmp/ec2-key-b"
  tempDir := "/tmp"
  fileExists := fun _ => true

/-- A configuration whose user-supplied log-output list already holds
the to-be-derived upload path twice (cluster name "x", temp dir
"/tmp"), with every validated field filled in. -/
def cfgDup : Config :=
  { defaultConfig with
    Tag := "t"
    ClusterName := "x"
    LogOutputs := ["/tmp/x.log", "/tmp/x.log"]
    ConfigPath := "/c"
    KeyName := "kn"
    KeyPath := "/kp"
    Plugins := [] }

/-! ## Theorems -/

/-- If some step in the middle of the field loop fails on every
configuration, the whole loop fails (with the first error hit). -/
theorem runSteps_error_mid (f : Config → Except String Config)
    (hf : ∀ c, ∃ e, f c = Except.error e) :
    ∀ (l1 l2 : List (Config → Except String Config)) (cc : Config),
      ∃ e, runSteps (l1 ++ f :: l2) cc = Except.error e := by
  intro l1
  induction l1 with
  | nil =>
    intro l2 cc
    obtain ⟨e, he⟩ := hf cc
    exact ⟨e, by simp [runSteps, he]⟩
  | cons s l1 ih =>
    intro l2 cc
    cases hs : s cc with
    | ok c2 =>
      obtain ⟨e, he⟩ := ih l2 c2
      exact ⟨e, by simp [runSteps, hs, he]⟩
    | error e => exact ⟨e, by simp [runSteps, hs]⟩

/-- C1.  The claim says a failed apply attempt inside the 5-minute
window is retried.  The code does the opposite: with the stop and
signal channels silent and the very first apply attempt exiting
non-zero six seconds into the window (wait 5s + run 1s, far below the
300-second deadline), `createConfigMap` returns that attempt's error
immediately — exactly one attempt is made, no retry happens.  (The
success path, inversely, logs "create ConfigMap failed" and keeps
looping, showing the error check is inverted relative to the code's own
log messages.) -/
theorem createConfigMap_returns_on_first_failure :
    createConfigMapRun (fun _ => ⟨false, false, false, 1⟩) =
      CMResult.failed 1 := by decide

/-- C2.  The claim says a successful apply attempt is terminal.  The
code instead loops back after every success: with every attempt
succeeding instantly (5 seconds per cycle), the loop performs 60
applies — one every wait interval until the 300-second deadline
elapses — and only then falls out to the single `Sync`. -/
theorem createConfigMap_reapplies_after_success :
    createConfigMapRun (fun _ => ⟨false, false, true, 0⟩) =
      CMResult.synced 60 := by decide

/-- C6.  If the stop channel or the interrupt signal fires during the
inter-attempt wait of any iteration `i` still inside the overall
deadline (`elapsed < 300`, with any amount of the deadline remaining),
the loop returns the abort outcome at once with only the `i` attempts
already made — no further apply attempt is started. -/
theorem ccmLoop_abort_on_cancel (env : Nat → IterInput)
    (fuel i elapsed : Nat) (hd : elapsed < 300)
    (hc : (env i).stopc = true ∨ (env i).sig = true) :
    ccmLoop env (fuel + 1) i elapsed = CMResult.aborted i := by
  rcases hc with hc | hc <;> simp [ccmLoop, hd, hc]

/-- Witness for C6: the stop channel fires during the first wait, 0
seconds into the deadline; the run aborts with zero attempts made. -/
theorem ccmLoop_abort_on_cancel_witness :
    ccmLoop (fun _ => ⟨true, false, true, 0⟩) 61 0 0 = CMResult.aborted 0 :=
  ccmLoop_abort_on_cancel (fun _ => ⟨true, false, true, 0⟩) 60 0 0
    (by decide) (Or.inl rfl)

/-- C3, counterexample.  The claim says that when `UpdateFromEnvs`
fails on a later field, the earlier field's valid override has already
been applied to the configuration.  On `defaultConfig` with `cexEnv`
(valid `AWS_ACCOUNT_ID=123`, malformed `UPLOAD_TESTER_LOGS=not-a-bool`)
the call fails — but the receiver's `AWSAccountID` is still empty, not
"123": the overrides were applied to a scratch copy that is written
back only on success. -/
theorem updateFromEnvs_partial_mutation_cex :
    updateFromEnvs defaultConfig cexEnv =
        Except.error
          "failed to parse not-a-bool (AWS_K8S_TESTER_EC2_UPLOAD_TESTER_LOGS)" ∧
      Config.AWSAccountID (updateFromEnvsApplied defaultConfig cexEnv) ≠ "123" :=
  ⟨by rfl, by decide⟩

/-- C3, amended.  Whenever the environment carries a malformed literal
for `UploadTesterLogs`, `UpdateFromEnvs` returns an error and leaves
the receiver configuration entirely unchanged — including every field
whose valid override appeared earlier in the pass: the overlay is
applied to a scratch copy and written back only on success, so an
overlay failure leaves no partial mutation on the receiver. -/
theorem updateFromEnvs_error_unchanged (cfg : Config) (env : String → String)
    (h : env (Config.EnvPrefix cfg ++ "UPLOAD_TESTER_LOGS") = "not-a-bool") :
    (∃ e, updateFromEnvs cfg env = Except.error e) ∧
      updateFromEnvsApplied cfg env = cfg := by
  have hf : ∀ c, ∃ e,
      uBool "upload-tester-logs" (fun c v => { c with UploadTesterLogs := v })
        env (Config.EnvPrefix cfg) c = Except.error e := by
    intro c
    have hk : env (Config.EnvPrefix cfg ++ envKey "upload-tester-logs") =
        "not-a-bool" := by
      rw [show envKey "upload-tester-logs" = "UPLOAD_TESTER_LOGS" from rfl]
      exact h
    refine ⟨"failed to parse " ++ "not-a-bool" ++ " ("
      ++ Config.EnvPrefix cfg ++ envKey "upload-tester-logs" ++ ")", ?_⟩
    rw [uBool, hk]
    rfl
  have hsplit : fieldSteps env (Config.EnvPrefix cfg) =
      (fieldSteps env (Config.EnvPrefix cfg)).take 8
        ++ (uBool "upload-tester-logs"
              (fun c v => { c with UploadTesterLogs := v })
              env (Config.EnvPrefix cfg))
        :: (fieldSteps env (Config.EnvPrefix cfg)).drop 9 := rfl
  obtain ⟨e, he⟩ : ∃ e, updateFromEnvs cfg env = Except.error e := by
    unfold updateFromEnvs
    rw [hsplit]
    exact runSteps_error_mid _ hf _ _ cfg
  refine ⟨⟨e, he⟩, ?_⟩
  unfold updateFromEnvsApplied
  rw [he]

/-- Witness for C3's amended theorem at `defaultConfig` / `cexEnv`. -/
theorem updateFromEnvs_error_unchanged_witness :
    (∃ e, updateFromEnvs defaultConfig cexEnv = Except.error e) ∧
      updateFromEnvsApplied defaultConfig cexEnv = defaultConfig :=
  updateFromEnvs_error_unchanged defaultConfig cexEnv (by rfl)

/-- A path starting with a slash stays rooted under append. -/
theorem isAbs_append (a b : String) (h : isAbs a = true) :
    isAbs (a ++ b) = true := by
  unfold isAbs at h ⊢
  rw [String.data_append]
  cases ha : a.data with
  | nil => rw [ha] at h; simp at h
  | cons c t => rw [ha] at h; simp_all

/-- `filepath.Abs` yields an absolute path (for an absolute cwd). -/
theorem isAbs_absPath (cwd p : String) (h : isAbs cwd = true) :
    isAbs (absPath cwd p) = true := by
  by_cases hp : isAbs p = true
  · simp [absPath, hp]
  · simp [absPath, hp, isAbs_append _ _ (isAbs_append _ _ h)]

/-- `filepath.Abs` is idempotent (for an absolute cwd). -/
theorem absPath_idem (cwd p : String) (h : isAbs cwd = true) :
    absPath cwd (absPath cwd p) = absPath cwd p := by
  by_cases hp : isAbs p = true
  · simp [absPath, hp]
  · simp [absPath, hp, isAbs_append _ _ (isAbs_append _ _ h)]

/-- C7.  For every configuration and store, `Sync` followed by `Load`
on the configuration's (post-Sync) path yields exactly the original
configuration except that `UpdatedAt` carries the sync timestamp,
`ConfigPath` is the absolute form of the recorded path, and a missing
(`nil`) instance mapping has been initialized to an empty one; no other
field is defaulted, validated or touched. -/
theorem sync_load_roundtrip (cwd : String) (now : Int) (cfg : Config)
    (fs : Store) (hcwd : isAbs cwd = true) :
    loadStore cwd (syncStore cwd now cfg fs).2
        (Config.ConfigPath (syncStore cwd now cfg fs).1) =
      Except.ok { cfg with
        ConfigPath := absPath cwd cfg.ConfigPath,
        UpdatedAt := now,
        Instances := some (cfg.Instances.getD []) } := by
  by_cases hp : isAbs cfg.ConfigPath = true
  · have hap : absPath cwd cfg.ConfigPath = cfg.ConfigPath := by
      simp [absPath, hp]
    cases hi : cfg.Instances with
    | none => simp [syncStore, loadStore, hp, hi, hap]
    | some l => simp [syncStore, loadStore, hp, hi, hap]
  · have hap2 : absPath cwd (absPath cwd cfg.ConfigPath) =
        absPath cwd cfg.ConfigPath := absPath_idem _ _ hcwd
    cases hi : cfg.Instances with
    | none => simp [syncStore, loadStore, hp, hi, hap2]
    | some l => simp [syncStore, loadStore, hp, hi, hap2]

/-- Witness for C7 at a concrete configuration, store and cwd. -/
theorem sync_load_roundtrip_witness :
    loadStore "/w" (syncStore "/w" 5 defaultConfig (fun _ => none)).2
        (Config.ConfigPath (syncStore "/w" 5 defaultConfig (fun _ => none)).1) =
      Except.ok { defaultConfig with
        ConfigPath := absPath "/w" (Config.ConfigPath defaultConfig),
        UpdatedAt := 5,
        Instances := some ((Config.Instances defaultConfig).getD []) } :=
  sync_load_roundtrip "/w" 5 defaultConfig (fun _ => none) (by decide)

/-- `deriveNames` never touches the init script text. -/
theorem deriveNames_initScript (ext : VEnv) (a : String) (cc : Config) :
    Config.InitScript (deriveNames ext a cc) = Config.InitScript cc := by
  simp only [deriveNames]; split_ifs <;> rfl

/-- `deriveNames` never touches the init-script-built flag. -/
theorem deriveNames_initScriptCreated (ext : VEnv) (a : String) (cc : Config) :
    Config.InitScriptCreated (deriveNames ext a cc) =
      Config.InitScriptCreated cc := by
  simp only [deriveNames]; split_ifs <;> rfl

/-- `derivePaths` never touches the init script text. -/
theorem derivePaths_initScript (ext : VEnv) (cc : Config) :
    Config.InitScript (derivePaths ext cc) = Config.InitScript cc := by
  simp only [derivePaths]; split_ifs <;> rfl

/-- `derivePaths` never touches the init-script-built flag. -/
theorem derivePaths_initScriptCreated (ext : VEnv) (cc : Config) :
    Config.InitScriptCreated (derivePaths ext cc) =
      Config.InitScriptCreated cc := by
  simp only [derivePaths]; split_ifs <;> rfl

/-- `deriveProfile` never touches the init script text. -/
theorem deriveProfile_initScript (ext : VEnv) (cc : Config) :
    Config.InitScript (deriveProfile ext cc).1 = Config.InitScript cc := by
  simp only [deriveProfile]; split_ifs <;> rfl

/-- `deriveProfile` never touches the init-script-built flag. -/
theorem deriveProfile_initScriptCreated (ext : VEnv) (cc : Config) :
    Config.InitScriptCreated (deriveProfile ext cc).1 =
      Config.InitScriptCreated cc := by
  simp only [deriveProfile]; split_ifs <;> rfl

/-- C10.  With an empty plugin list, `ValidateAndSetDefaults` leaves
`InitScript` and `InitScriptCreated` unchanged on every call — on every
failing check and on success alike — so in particular a non-empty
`CustomScript` is never incorporated into the init script unless at
least one plugin is declared. -/
theorem plugins_empty_initScript_frame (cfg : Config) (ext : VEnv)
    (h : cfg.Plugins = []) :
    Config.InitScript (validateAndSetDefaults ext cfg).1 = cfg.InitScript ∧
      Config.InitScriptCreated (validateAndSetDefaults ext cfg).1 =
        cfg.InitScriptCreated := by
  have hstep : initScriptStep cfg = (cfg, none) := by
    simp [initScriptStep, h]
  unfold validateAndSetDefaults
  rw [hstep]
  dsimp only
  split
  · exact ⟨rfl, rfl⟩
  split
  · exact ⟨rfl, rfl⟩
  split
  · exact ⟨rfl, rfl⟩
  · split
    · exact ⟨rfl, rfl⟩
    split
    · exact ⟨rfl, rfl⟩
    split
    · exact ⟨rfl, rfl⟩
    split
    · exact ⟨rfl, rfl⟩
    simp [deriveProfile_initScript, deriveProfile_initScriptCreated,
      derivePaths_initScript, derivePaths_initScriptCreated,
      deriveNames_initScript, deriveNames_initScriptCreated]

/-- Witness for C10: `defaultConfig` with its plugin list emptied and a
non-empty custom script; the finalizer leaves the init script fields
untouched. -/
theorem plugins_empty_initScript_frame_witness :
    Config.InitScript (validateAndSetDefaults extDefault
          { defaultConfig with Plugins := [], CustomScript := "echo hi" }).1 =
        Config.InitScript
          { defaultConfig with Plugins := [], CustomScript := "echo hi" } ∧
      Config.InitScriptCreated (validateAndSetDefaults extDefault
          { defaultConfig with Plugins := [], CustomScript := "echo hi" }).1 =
        Config.InitScriptCreated
          { defaultConfig with Plugins := [], CustomScript := "echo hi" } :=
  plugins_empty_initScript_frame
    { defaultConfig with Plugins := [], CustomScript := "echo hi" }
    extDefault (by rfl)

/-- The init-script step never returns an error (the modelled renderer
always succeeds). -/
theorem initScriptStep_eq (cfg : Config) :
    initScriptStep cfg = ((initScriptStep cfg).1, none) := by
  simp only [initScriptStep, pluginsCreate]; split_ifs <;> rfl

/-- The init-script step never touches `InstanceType`. -/
theorem initScriptStep_instanceType (cfg : Config) :
    Config.InstanceType (initScriptStep cfg).1 = Config.InstanceType cfg := by
  simp only [initScriptStep, pluginsCreate]; split_ifs <;> rfl

/-- The init-script step never touches `ClusterSize`. -/
theorem initScriptStep_clusterSize (cfg : Config) :
    Config.ClusterSize (initScriptStep cfg).1 = Config.ClusterSize cfg := by
  simp only [initScriptStep, pluginsCreate]; split_ifs <;> rfl

/-- C4, counterexample.  The claim says a failing check performs no
mutation at all.  On `defaultConfig` with `InstanceType` emptied (log
outputs, region, user name and image ID all valid; plugins declared;
built flag unset), the call fails the instance-type check — yet the
init-script-built flag has been set on the configuration, because the
init-script derivation runs before the `InstanceType` and `ClusterSize`
checks. -/
theorem validate_mutates_cex :
    (validateAndSetDefaults extDefault
        { defaultConfig with InstanceType := "" }).2 =
        some "empty InstanceType" ∧
      Config.InitScriptCreated (validateAndSetDefaults extDefault
        { defaultConfig with InstanceType := "" }).1 = true ∧
      Config.InitScriptCreated { defaultConfig with InstanceType := "" } =
        false :=
  ⟨by rfl, by decide, by decide⟩

/-- C4, amended.  The first four checks (log outputs, region empty,
region recognized, user name, image ID) fail fast with a descriptive
error and no mutation whatsoever.  The instance-type and cluster-size
checks run after the init-script derivation step, so when they fail the
returned configuration carries exactly that step's mutations (the
rendered init script and its built flag, when plugins are declared and
the flag was unset) and nothing else. -/
theorem validate_failfast_checks (cfg : Config) (ext : VEnv) :
    (cfg.LogOutputs.length = 0 →
      validateAndSetDefaults ext cfg =
        (cfg, some "EC2 LogOutputs is not specified")) ∧
    (cfg.LogOutputs.length ≠ 0 → cfg.AWSRegion = "" →
      validateAndSetDefaults ext cfg = (cfg, some "empty AWSRegion")) ∧
    (cfg.LogOutputs.length ≠ 0 → cfg.AWSRegion ≠ "" →
      regionToAiport cfg.AWSRegion = none →
      validateAndSetDefaults ext cfg =
        (cfg, some (cfg.AWSRegion ++ " not found"))) ∧
    (cfg.LogOutputs.length ≠ 0 → (∃ a, regionToAiport cfg.AWSRegion = some a) →
      cfg.UserName = "" →
      validateAndSetDefaults ext cfg = (cfg, some "empty UserName")) ∧
    (cfg.LogOutputs.length ≠ 0 → (∃ a, regionToAiport cfg.AWSRegion = some a) →
      cfg.UserName ≠ "" → cfg.ImageID = "" →
      validateAndSetDefaults ext cfg = (cfg, some "empty ImageID")) ∧
    (cfg.LogOutputs.length ≠ 0 → (∃ a, regionToAiport cfg.AWSRegion = some a) →
      cfg.UserName ≠ "" → cfg.ImageID ≠ "" → cfg.InstanceType = "" →
      validateAndSetDefaults ext cfg =
        ((initScriptStep cfg).1, some "empty InstanceType")) ∧
    (cfg.LogOutputs.length ≠ 0 → (∃ a, regionToAiport cfg.AWSRegion = some a) →
      cfg.UserName ≠ "" → cfg.ImageID ≠ "" → cfg.InstanceType ≠ "" →
      cfg.ClusterSize < 1 →
      validateAndSetDefaults ext cfg =
        ((initScriptStep cfg).1, some "unexpected ClusterSize")) := by
  have hreg : cfg.AWSRegion = "" → regionToAiport cfg.AWSRegion = none := by
    intro h; rw [h]; rfl
  refine ⟨?_, ?_, ?_, ?_, ?_, ?_, ?_⟩
  · intro h1
    simp [validateAndSetDefaults, h1]
  · intro h1 h2
    simp [validateAndSetDefaults, h1, h2, hreg h2]
  · intro h1 h2 h3
    simp [validateAndSetDefaults, h1, h2, h3]
  · intro h1 ⟨a, ha⟩ h4
    simp [validateAndSetDefaults, h1, ha, h4]
    intro h2
    exact absurd (hreg h2) (by rw [ha]; simp)
  · intro h1 ⟨a, ha⟩ h4 h5
    simp [validateAndSetDefaults, h1, ha, h4, h5]
    intro h2
    exact absurd (hreg h2) (by rw [ha]; simp)
  · intro h1 ⟨a, ha⟩ h4 h5 h6
    rw [validateAndSetDefaults]
    rw [initScriptStep_eq cfg]
    have h6' : Config.InstanceType (initScriptStep cfg).1 = "" := by
      rw [initScriptStep_instanceType]; exact h6
    simp [h1, ha, h4, h5, h6']
    intro h2
    exact absurd (hreg h2) (by rw [ha]; simp)
  · intro h1 ⟨a, ha⟩ h4 h5 h6 h7
    rw [validateAndSetDefaults]
    rw [initScriptStep_eq cfg]
    have h6' : ¬(Config.InstanceType (initScriptStep cfg).1 = "") := by
      rw [initScriptStep_instanceType]; exact h6
    have h7' : Config.ClusterSize (initScriptStep cfg).1 < 1 := by
      rw [initScriptStep_clusterSize]; exact h7
    simp [h1, ha, h4, h5, h6', h7']
    intro h2
    exact absurd (hreg h2) (by rw [ha]; simp)

/-- Witness for C4's amended theorem: the log-outputs check fails on
`defaultConfig` with the list emptied, mutating nothing. -/
theorem validate_failfast_checks_witness :
    validateAndSetDefaults extDefault { defaultConfig with LogOutputs := [] } =
      ({ defaultConfig with LogOutputs := [] },
        some "EC2 LogOutputs is not specified") :=
  (validate_failfast_checks { defaultConfig with LogOutputs := [] }
    extDefault).1 (by rfl)


/-- The init-script step as a single conditional record update. -/
theorem initScriptStep_char (cfg : Config) :
    initScriptStep cfg =
      (if 0 < cfg.Plugins.length ∧ ¬cfg.InitScriptCreated then
        { cfg with
          InitScript := ("#!/usr/bin/env bash\n# user: " ++ cfg.UserName ++ "\n"
            ++ String.intercalate "\n" cfg.Plugins ++ "\n" ++ cfg.CustomScript)
            ++ "\n" ++ cfg.InitScript,
          InitScriptCreated := true }
      else cfg, none) := by
  simp only [initScriptStep, pluginsCreate]; split_ifs <;> rfl

/-- `deriveNames` as a single record update. -/
theorem deriveNames_char (ext : VEnv) (a : String) (cc : Config) :
    deriveNames ext a cc =
      { cc with
        Tag := if cc.Tag = "" then genTag ext.year ext.month ext.day ext.hour
          else cc.Tag,
        ClusterName := if cc.ClusterName = "" then
            (if cc.Tag = "" then genTag ext.year ext.month ext.day ext.hour
              else cc.Tag) ++ "-" ++ a.toLower ++ "-" ++ cc.AWSRegion ++ "-"
              ++ randString ext.rnd 5
          else cc.ClusterName } := by
  simp only [deriveNames]; split_ifs <;> try rfl

/-- `derivePaths` as a single record update. -/
theorem derivePaths_char (ext : VEnv) (cc : Config) :
    derivePaths ext cc =
      { cc with
        ConfigPath := if cc.ConfigPath = "" then ext.tempFileConfig
          else cc.ConfigPath,
        ConfigPathBucket := joinPath cc.ClusterName "ec2config.yaml",
        LogOutputToUploadPath := joinPath ext.tempDir (cc.ClusterName ++ ".log"),
        LogOutputs := if cc.LogOutputs.contains
            (joinPath ext.tempDir (cc.ClusterName ++ ".log")) then cc.LogOutputs
          else cc.LogOutputs ++ [joinPath ext.tempDir (cc.ClusterName ++ ".log")],
        LogOutputToUploadPathBucket := joinPath cc.ClusterName "ec2.log",
        KeyName := if cc.KeyName = "" then cc.ClusterName else cc.KeyName,
        KeyPathBucket := joinPath cc.ClusterName "ec2.key",
        KeyPath := if cc.KeyPath = "" then ext.tempFileKey else cc.KeyPath } := by
  simp only [derivePaths]; split_ifs <;> try rfl

/-- `deriveProfile` as a conditional record update. -/
theorem deriveProfile_char (ext : VEnv) (cc : Config) :
    deriveProfile ext cc =
      if cc.InstanceProfileFilePath = "" then (cc, none)
      else if ext.fileExists cc.InstanceProfileFilePath then
        ({ cc with
            InstanceProfileName := cc.ClusterName ++ "-instance-profile",
            InstanceProfileRoleName := cc.ClusterName ++ "-instance-profile"
              ++ "-role",
            InstanceProfilePolicyName := cc.ClusterName ++ "-instance-profile"
              ++ "-policy" }, none)
      else (cc, some ("instance profile name " ++ cc.InstanceProfileFilePath
        ++ " does not exist")) := rfl


/-- Inversion of a successful `ValidateAndSetDefaults` call: all six
checks passed and the result is the derivation pipeline's output. -/
theorem vasd_success_inv (ext : VEnv) (cfg cfg' : Config)
    (h : validateAndSetDefaults ext cfg = (cfg', none)) :
    ∃ a, regionToAiport cfg.AWSRegion = some a ∧
      cfg.LogOutputs.length ≠ 0 ∧ cfg.UserName ≠ "" ∧ cfg.ImageID ≠ "" ∧
      Config.InstanceType (initScriptStep cfg).1 ≠ "" ∧
      ¬(Config.ClusterSize (initScriptStep cfg).1 < 1) ∧
      deriveProfile ext (derivePaths ext
        (deriveNames ext a (initScriptStep cfg).1)) = (cfg', none) := by
  unfold validateAndSetDefaults at h
  by_cases h1 : cfg.LogOutputs.length = 0
  · simp [h1] at h
  rw [if_neg h1] at h
  by_cases h2 : cfg.AWSRegion = ""
  · simp [h2] at h
  rw [if_neg h2] at h
  cases hr : regionToAiport cfg.AWSRegion with
  | none => rw [hr] at h; simp at h
  | some a =>
    rw [hr] at h
    dsimp only at h
    by_cases h4 : cfg.UserName = ""
    · simp [h4] at h
    rw [if_neg h4] at h
    by_cases h5 : cfg.ImageID = ""
    · simp [h5] at h
    rw [if_neg h5] at h
    rw [initScriptStep_eq cfg] at h
    dsimp only at h
    by_cases h6 : Config.InstanceType (initScriptStep cfg).1 = ""
    · simp [h6] at h
    rw [if_neg h6] at h
    by_cases h7 : Config.ClusterSize (initScriptStep cfg).1 < 1
    · simp [h7] at h
    rw [if_neg h7] at h
    exact ⟨a, rfl, h1, h4, h5, h6, h7, h⟩


/-- `decChar` always yields a decimal digit character. -/
theorem decChar_isDigit (n : Nat) : (decChar n).isDigit = true := by
  unfold decChar
  split <;> rfl

/-- Decimal rendering yields digit characters only. -/
theorem decDigitsCore_all_digits (fuel : Nat) :
    ∀ (n : Nat) (acc : List Char), acc.all Char.isDigit = true →
      (decDigitsCore fuel n acc).all Char.isDigit = true := by
  induction fuel with
  | zero => intro n acc hacc; exact hacc
  | succ fuel ih =>
    intro n acc hacc
    unfold decDigitsCore
    split_ifs
    · simp [decChar_isDigit, hacc]
    · exact ih _ _ (by simp [decChar_isDigit, hacc])

/-- Decimal rendering of a two-digit number. -/
theorem decDigitsCore_two (n : Nat) (h1 : 10 ≤ n) (h2 : n ≤ 99)
    (acc : List Char) :
    decDigitsCore (n + 1) n acc =
      decChar (n / 10) :: decChar (n % 10) :: acc := by
  obtain ⟨m, rfl⟩ : ∃ m, n = m + 10 := ⟨n - 10, by omega⟩
  have hn : ¬(m + 10 < 10) := by omega
  have hd : (m + 10) / 10 < 10 := by omega
  rw [show m + 10 + 1 = (m + 10) + 1 from rfl]
  unfold decDigitsCore
  rw [if_neg hn]
  rw [show m + 10 = (m + 9) + 1 by omega]
  unfold decDigitsCore
  rw [if_pos (by omega : (m + 9 + 1) / 10 < 10)]

/-- The generated tag is the constant prefix "ec2-" followed by eight
decimal digits (two each for year-2000, month, day, hour). -/
theorem genTag_shape (y m d h : Nat) (hy1 : 2010 ≤ y) (hy2 : y ≤ 2099)
    (hm : m ≤ 99) (hd : d ≤ 99) (hh : h ≤ 99) :
    ∃ t : List Char, genTag y m d h = "ec2-" ++ (⟨t⟩ : String) ∧
      t.length = 8 ∧ t.all Char.isDigit = true := by
  refine ⟨decString (y - 2000) ++ pad2 m ++ pad2 d ++ pad2 h, rfl, ?_, ?_⟩
  · have hlen2 : ∀ k : Nat, k ≤ 99 → (pad2 k).length = 2 := by
      intro k hk
      unfold pad2
      split_ifs with hlt
      · rfl
      · unfold decString
        rw [decDigitsCore_two k (by omega) hk []]
        rfl
    have hy : (decString (y - 2000)).length = 2 := by
      unfold decString
      rw [decDigitsCore_two (y - 2000) (by omega) (by omega) []]
      rfl
    rw [List.length_append, List.length_append, List.length_append,
      hy, hlen2 m hm, hlen2 d hd, hlen2 h hh]
  · have hp : ∀ k : Nat, (pad2 k).all Char.isDigit = true := by
      intro k
      unfold pad2
      split_ifs
      · simp [decChar_isDigit]
      · exact decDigitsCore_all_digits _ _ _ rfl
    have hy : (decString (y - 2000)).all Char.isDigit = true :=
      decDigitsCore_all_digits _ _ _ rfl
    rw [List.all_append, List.all_append, List.all_append,
      hy, hp m, hp d, hp h]
    rfl

/-- `randString` produces exactly `n` characters. -/
theorem randString_length (rnd : Nat → Nat) (n : Nat) :
    (randString rnd n).length = n := by
  show (List.map _ (List.range n)).length = n
  rw [List.length_map, List.length_range]

/-- Every `randString` character comes from the lowercase-alphanumeric
alphabet `ll`. -/
theorem randString_mem_ll (rnd : Nat → Nat) (n : Nat) :
    ∀ c ∈ (randString rnd n).data, c ∈ ll.data := by
  intro c hc
  simp only [randString, List.mem_map] at hc
  obtain ⟨i, _, rfl⟩ := hc
  have hlt : rnd i % 36 < ll.data.length := by
    have : rnd i % 36 < 36 := Nat.mod_lt _ (by omega)
    simpa [ll] using this
  rw [List.getD_eq_getElem ll.data 'a' hlt]
  exact List.getElem_mem hlt


/-- The init-script step never touches `Tag`. -/
theorem initScriptStep_tag (cfg : Config) :
    Config.Tag (initScriptStep cfg).1 = cfg.Tag := by
  simp only [initScriptStep, pluginsCreate]; split_ifs <;> rfl

/-- The init-script step never touches `ClusterName`. -/
theorem initScriptStep_clusterName (cfg : Config) :
    Config.ClusterName (initScriptStep cfg).1 = cfg.ClusterName := by
  simp only [initScriptStep, pluginsCreate]; split_ifs <;> rfl

/-- The init-script step never touches `AWSRegion`. -/
theorem initScriptStep_awsRegion (cfg : Config) :
    Config.AWSRegion (initScriptStep cfg).1 = cfg.AWSRegion := by
  simp only [initScriptStep, pluginsCreate]; split_ifs <;> rfl

/-- `derivePaths` never touches `Tag`. -/
theorem derivePaths_tag (ext : VEnv) (cc : Config) :
    Config.Tag (derivePaths ext cc) = cc.Tag := by
  simp only [derivePaths]; split_ifs <;> rfl

/-- `derivePaths` never touches `ClusterName`. -/
theorem derivePaths_clusterName (ext : VEnv) (cc : Config) :
    Config.ClusterName (derivePaths ext cc) = cc.ClusterName := by
  simp only [derivePaths]; split_ifs <;> rfl

/-- `deriveProfile` never touches `Tag`. -/
theorem deriveProfile_tag (ext : VEnv) (cc : Config) :
    Config.Tag (deriveProfile ext cc).1 = cc.Tag := by
  simp only [deriveProfile]; split_ifs <;> rfl

/-- `deriveProfile` never touches `ClusterName`. -/
theorem deriveProfile_clusterName (ext : VEnv) (cc : Config) :
    Config.ClusterName (deriveProfile ext cc).1 = cc.ClusterName := by
  simp only [deriveProfile]; split_ifs <;> rfl

/-- C8, amended.  On a successful finalize: a non-empty `Tag` and a
non-empty `ClusterName` are never recomputed; an empty `Tag` is derived
from the current time bucketed to the hour as the constant prefix
"ec2-" followed by a fixed-width numeric string encoding two-digit
year, month, day and hour (not as a purely numeric string — the
constant prefix is part of the tag); an empty `ClusterName` is derived
as tag, lower-cased region label, region, and a random 5-character
suffix over the lowercase-alphanumeric alphabet, hyphen-separated. -/
theorem tag_clusterName_derivation (ext : VEnv) (cfg cfg' : Config)
    (h : validateAndSetDefaults ext cfg = (cfg', none))
    (hy1 : 2010 ≤ ext.year) (hy2 : ext.year ≤ 2099)
    (hm : ext.month ≤ 99) (hd : ext.day ≤ 99) (hh : ext.hour ≤ 99) :
    (cfg.Tag ≠ "" → cfg'.Tag = cfg.Tag) ∧
    (cfg.ClusterName ≠ "" → cfg'.ClusterName = cfg.ClusterName) ∧
    (cfg.Tag = "" → ∃ t : List Char, cfg'.Tag = "ec2-" ++ (⟨t⟩ : String) ∧
      t.length = 8 ∧ t.all Char.isDigit = true) ∧
    (cfg.ClusterName = "" → ∃ a sfx, regionToAiport cfg.AWSRegion = some a ∧
      cfg'.ClusterName = cfg'.Tag ++ "-" ++ a.toLower ++ "-" ++ cfg.AWSRegion
        ++ "-" ++ sfx ∧ sfx.length = 5 ∧ ∀ c ∈ sfx.data, c ∈ ll.data) := by
  obtain ⟨a, hr, _, _, _, _, _, hprof⟩ := vasd_success_inv ext cfg cfg' h
  have hfst : (deriveProfile ext (derivePaths ext
      (deriveNames ext a (initScriptStep cfg).1))).1 = cfg' := by rw [hprof]
  have htag : cfg'.Tag =
      if cfg.Tag = "" then genTag ext.year ext.month ext.day ext.hour
      else cfg.Tag := by
    rw [← hfst, deriveProfile_tag, derivePaths_tag, deriveNames_char]
    dsimp only
    rw [initScriptStep_tag]
  have hcname : cfg'.ClusterName =
      if cfg.ClusterName = "" then
        (if cfg.Tag = "" then genTag ext.year ext.month ext.day ext.hour
          else cfg.Tag) ++ "-" ++ a.toLower ++ "-" ++ cfg.AWSRegion ++ "-"
          ++ randString ext.rnd 5
      else cfg.ClusterName := by
    rw [← hfst, deriveProfile_clusterName, derivePaths_clusterName,
      deriveNames_char]
    dsimp only
    rw [initScriptStep_tag, initScriptStep_clusterName, initScriptStep_awsRegion]
  refine ⟨?_, ?_, ?_, ?_⟩
  · intro hT; rw [htag, if_neg hT]
  · intro hC; rw [hcname, if_neg hC]
  · intro hT
    rw [htag, if_pos hT]
    exact genTag_shape ext.year ext.month ext.day ext.hour hy1 hy2 hm hd hh
  · intro hC
    refine ⟨a, randString ext.rnd 5, hr, ?_, randString_length _ 5,
      randString_mem_ll _ 5⟩
    rw [hcname, if_pos hC, htag]


/-- C8, counterexample.  The claim calls the derived tag "a fixed-width
numeric string encoding two-digit year, month, day, and hour"; at the
concrete clock 2019-01-02 03h the derived tag is "ec2-19010203", which
is not a numeric string — the encoding carries the constant "ec2-"
prefix. -/
theorem genTag_not_numeric_cex :
    Config.Tag (validateAndSetDefaults extDefault defaultConfig).1 =
        "ec2-19010203" ∧
      ¬((Config.Tag (validateAndSetDefaults extDefault
          defaultConfig).1).data.all Char.isDigit = true) :=
  ⟨by decide, by decide⟩

/-- Witness for C8's amended theorem at `defaultConfig`/`extDefault`. -/
theorem tag_clusterName_derivation_witness :
    (Config.Tag defaultConfig ≠ "" →
      Config.Tag (validateAndSetDefaults extDefault defaultConfig).1 =
        Config.Tag defaultConfig) ∧
    (Config.ClusterName defaultConfig ≠ "" →
      Config.ClusterName (validateAndSetDefaults extDefault defaultConfig).1 =
        Config.ClusterName defaultConfig) ∧
    (Config.Tag defaultConfig = "" → ∃ t : List Char,
      Config.Tag (validateAndSetDefaults extDefault defaultConfig).1 =
        "ec2-" ++ (⟨t⟩ : String) ∧ t.length = 8 ∧
        t.all Char.isDigit = true) ∧
    (Config.ClusterName defaultConfig = "" → ∃ a sfx,
      regionToAiport (Config.AWSRegion defaultConfig) = some a ∧
      Config.ClusterName (validateAndSetDefaults extDefault defaultConfig).1 =
        Config.Tag (validateAndSetDefaults extDefault defaultConfig).1 ++ "-"
          ++ a.toLower ++ "-" ++ Config.AWSRegion defaultConfig ++ "-" ++ sfx ∧
      sfx.length = 5 ∧ ∀ c ∈ sfx.data, c ∈ ll.data) :=
  tag_clusterName_derivation extDefault defaultConfig
    (validateAndSetDefaults extDefault defaultConfig).1 (by rfl)
    (by decide) (by decide) (by decide) (by decide) (by decide)


/-- The receiver state after the init-script step, as a record of
conditional field updates. -/
theorem initScriptStep_fst (cfg : Config) :
    (initScriptStep cfg).1 =
      { cfg with
        InitScript := if 0 < cfg.Plugins.length ∧ ¬cfg.InitScriptCreated then
            ("#!/usr/bin/env bash\n# user: " ++ cfg.UserName ++ "\n"
              ++ String.intercalate "\n" cfg.Plugins ++ "\n" ++ cfg.CustomScript)
              ++ "\n" ++ cfg.InitScript
          else cfg.InitScript,
        InitScriptCreated := if 0 < cfg.Plugins.length ∧ ¬cfg.InitScriptCreated
          then true else cfg.InitScriptCreated } := by
  simp only [initScriptStep, pluginsCreate]; split_ifs <;> rfl

/-- An append with a non-empty right part is non-empty. -/
theorem append_ne_empty_right (a b : String) (hb : b ≠ "") : a ++ b ≠ "" := by
  intro hcon
  have hd := congrArg String.data hcon
  rw [String.data_append] at hd
  apply hb
  cases hb' : b.data with
  | nil => exact String.ext hb'
  | cons c t => rw [hb'] at hd; simp at hd

/-- An append with a non-empty left part is non-empty. -/
theorem prefix_ne_empty (a b : String) (ha : a ≠ "") : a ++ b ≠ "" := by
  intro hcon
  have hd := congrArg String.data hcon
  rw [String.data_append] at hd
  apply ha
  cases ha' : a.data with
  | nil => exact String.ext ha'
  | cons c t => rw [ha'] at hd; simp at hd

/-- The generated tag is never empty. -/
theorem genTag_ne_empty (y m d h : Nat) : genTag y m d h ≠ "" := by
  unfold genTag
  exact prefix_ne_empty _ _ (by decide)


/-- The 5-character random suffix is never empty. -/
theorem randString_ne_empty (rnd : Nat → Nat) : randString rnd 5 ≠ "" := by
  intro hcon
  have hl := randString_length rnd 5
  rw [hcon] at hl
  simp [String.length] at hl

/-- A configuration satisfying the post-finalize invariants (checks
pass, derived names non-empty, storage keys and log-upload path already
at their recomputed values, log list already containing the upload
path, profile names already derived when a profile file is configured)
is a fixed point of `ValidateAndSetDefaults`: the call succeeds and
changes nothing, rewriting the storage keys only to their existing
values. -/
theorem vasd_second_run (ext' : VEnv) (cfg' : Config) (a : String)
    (hreg : regionToAiport (Config.AWSRegion cfg') = some a)
    (hlen : ¬(List.length (Config.LogOutputs cfg') = 0))
    (huser : ¬(Config.UserName cfg' = ""))
    (himg : ¬(Config.ImageID cfg' = ""))
    (hcond : ¬(0 < (Config.Plugins cfg').length ∧
      ¬Config.InitScriptCreated cfg'))
    (hit : ¬(Config.InstanceType cfg' = ""))
    (hcs : ¬(Config.ClusterSize cfg' < 1))
    (htag : ¬(Config.Tag cfg' = ""))
    (hcn : ¬(Config.ClusterName cfg' = ""))
    (hcp : ¬(Config.ConfigPath cfg' = ""))
    (hcpb : Config.ConfigPathBucket cfg' =
      joinPath (Config.ClusterName cfg') "ec2config.yaml")
    (hlp : Config.LogOutputToUploadPath cfg' =
      joinPath (VEnv.tempDir ext') (Config.ClusterName cfg' ++ ".log"))
    (hcont : (Config.LogOutputs cfg').contains
      (Config.LogOutputToUploadPath cfg') = true)
    (hlpb : Config.LogOutputToUploadPathBucket cfg' =
      joinPath (Config.ClusterName cfg') "ec2.log")
    (hkn : ¬(Config.KeyName cfg' = ""))
    (hkpb : Config.KeyPathBucket cfg' =
      joinPath (Config.ClusterName cfg') "ec2.key")
    (hkp : ¬(Config.KeyPath cfg' = ""))
    (hprofile : Config.InstanceProfileFilePath cfg' = "" ∨
      (VEnv.fileExists ext' (Config.InstanceProfileFilePath cfg') = true ∧
       Config.InstanceProfileName cfg' =
         Config.ClusterName cfg' ++ "-instance-profile" ∧
       Config.InstanceProfileRoleName cfg' =
         Config.ClusterName cfg' ++ "-instance-profile" ++ "-role" ∧
       Config.InstanceProfilePolicyName cfg' =
         Config.ClusterName cfg' ++ "-instance-profile" ++ "-policy")) :
    validateAndSetDefaults ext' cfg' = (cfg', none) := by
  have hregne : ¬(Config.AWSRegion cfg' = "") := by
    intro e
    rw [e] at hreg
    have hnone : (none : Option String) = some a := hreg
    nomatch hnone
  have hstep2 : initScriptStep cfg' = (cfg', none) := by
    rw [initScriptStep_char, if_neg hcond]
  have hnames : deriveNames ext' a cfg' = cfg' := by
    rw [deriveNames_char, if_neg htag, if_neg hcn]
  have hpaths : derivePaths ext' cfg' = cfg' := by
    rw [derivePaths_char, if_neg hcp, if_neg hkn, if_neg hkp]
    rw [← hlp, hcont]
    rw [← hcpb, ← hlpb, ← hkpb]
    rfl
  have hprof2 : deriveProfile ext' cfg' = (cfg', none) := by
    rw [deriveProfile_char]
    rcases hprofile with hip | ⟨hfx, hn1, hn2, hn3⟩
    · rw [if_pos hip]
    · by_cases hipe : Config.InstanceProfileFilePath cfg' = ""
      · rw [if_pos hipe]
      · rw [if_neg hipe, if_pos hfx, ← hn3, ← hn2, ← hn1]
  unfold validateAndSetDefaults
  rw [if_neg hlen, if_neg hregne, hreg]
  dsimp only
  rw [if_neg huser, if_neg himg, hstep2]
  dsimp only
  rw [if_neg hit, if_neg hcs, hnames, hpaths, hprof2]


set_option maxHeartbeats 1000000 in
/-- C5, amended.  If `ValidateAndSetDefaults` succeeded once (with
non-empty temp-file allocations), a second call — under the same temp
directory and the same file-existence observations — succeeds and
returns the configuration completely unchanged: no already-nonempty
derived field changes, the init script is not rebuilt, no entry is
added to `LogOutputs`, and the recomputed storage keys are rewritten to
their same values.  The derived log-upload path occurs exactly once
afterwards provided the pre-finalize list did not already contain it
more than once (a pre-existing duplicate is preserved, see the
counterexample). -/
theorem validate_idempotent (ext ext' : VEnv) (cfg cfg' : Config)
    (h : validateAndSetDefaults ext cfg = (cfg', none))
    (hc : VEnv.tempFileConfig ext ≠ "") (hk : VEnv.tempFileKey ext ≠ "")
    (ht : VEnv.tempDir ext' = VEnv.tempDir ext)
    (hfe : VEnv.fileExists ext' = VEnv.fileExists ext) :
    validateAndSetDefaults ext' cfg' = (cfg', none) ∧
      ((cfg.LogOutputs.count (Config.LogOutputToUploadPath cfg') ≤ 1 →
        (Config.LogOutputs cfg').count (Config.LogOutputToUploadPath cfg') = 1)) := by
  obtain ⟨a, hr, h1, h4, h5, h6, h7, hprof⟩ := vasd_success_inv ext cfg cfg' h
  rw [initScriptStep_fst] at h6 h7
  rw [initScriptStep_fst, deriveNames_char, derivePaths_char,
    deriveProfile_char] at hprof
  dsimp only at hprof
  by_cases hip : cfg.InstanceProfileFilePath = ""
  case pos =>
    rw [if_pos hip] at hprof
    injection hprof with hR hnil
    have hreg' : regionToAiport (Config.AWSRegion cfg') = some a := by
      rw [← hR]; exact hr
    have hlen' : ¬(List.length (Config.LogOutputs cfg') = 0) := by
      rw [← hR]; dsimp only
      split_ifs <;> first | exact h1 | simp
    have huser' : ¬(Config.UserName cfg' = "") := by rw [← hR]; exact h4
    have himg' : ¬(Config.ImageID cfg' = "") := by rw [← hR]; exact h5
    have hcond' : ¬(0 < (Config.Plugins cfg').length ∧
        ¬Config.InitScriptCreated cfg') := by
      rw [← hR]; dsimp only
      rintro ⟨hl, hnc⟩
      split_ifs at hnc with hc0
      · exact hnc rfl
      · exact hc0 ⟨hl, hnc⟩
    have hit' : ¬(Config.InstanceType cfg' = "") := by rw [← hR]; exact h6
    have hcs' : ¬(Config.ClusterSize cfg' < 1) := by rw [← hR]; exact h7
    have htag' : ¬(Config.Tag cfg' = "") := by
      rw [← hR]; dsimp only
      split_ifs <;> first | exact genTag_ne_empty _ _ _ _ | assumption
    have hcn' : ¬(Config.ClusterName cfg' = "") := by
      rw [← hR]; dsimp only
      split_ifs <;>
        first | exact append_ne_empty_right _ _ (randString_ne_empty _)
              | assumption
    have hcp' : ¬(Config.ConfigPath cfg' = "") := by
      rw [← hR]; dsimp only
      split_ifs <;> first | exact hc | assumption
    have hcpb' : Config.ConfigPathBucket cfg' =
        joinPath (Config.ClusterName cfg') "ec2config.yaml" := by rw [← hR]
    have hlpE : Config.LogOutputToUploadPath cfg' =
        joinPath (VEnv.tempDir ext) (Config.ClusterName cfg' ++ ".log") := by
      rw [← hR]
    have hlp' : Config.LogOutputToUploadPath cfg' =
        joinPath (VEnv.tempDir ext') (Config.ClusterName cfg' ++ ".log") := by
      rw [ht]; exact hlpE
    have hLO : Config.LogOutputs cfg' =
        if cfg.LogOutputs.contains (Config.LogOutputToUploadPath cfg') then
          cfg.LogOutputs
        else cfg.LogOutputs ++ [Config.LogOutputToUploadPath cfg'] := by
      rw [← hR]
    have hcont' : (Config.LogOutputs cfg').contains
        (Config.LogOutputToUploadPath cfg') = true := by
      rw [hLO]
      split_ifs with hcc
      · exact hcc
      · simp
    have hlpb' : Config.LogOutputToUploadPathBucket cfg' =
        joinPath (Config.ClusterName cfg') "ec2.log" := by rw [← hR]
    have hkn' : ¬(Config.KeyName cfg' = "") := by
      rw [← hR]; dsimp only
      split_ifs <;>
        first | exact append_ne_empty_right _ _ (randString_ne_empty _)
              | assumption
    have hkpb' : Config.KeyPathBucket cfg' =
        joinPath (Config.ClusterName cfg') "ec2.key" := by rw [← hR]
    have hkp' : ¬(Config.KeyPath cfg' = "") := by
      rw [← hR]; dsimp only
      split_ifs <;> first | exact hk | assumption
    have hip' : Config.InstanceProfileFilePath cfg' = "" := by
      rw [← hR]; exact hip
    refine ⟨vasd_second_run ext' cfg' a hreg' hlen' huser' himg' hcond' hit'
      hcs' htag' hcn' hcp' hcpb' hlp' hcont' hlpb' hkn' hkpb' hkp'
      (Or.inl hip'), ?_⟩
    intro hle
    rw [hLO]
    split_ifs with hcc
    · have hmem : Config.LogOutputToUploadPath cfg' ∈ cfg.LogOutputs := by
        simpa using hcc
      have := List.count_pos_iff.mpr hmem
      omega
    · have hz : cfg.LogOutputs.count (Config.LogOutputToUploadPath cfg') = 0 := by
        rw [List.count_eq_zero]
        simpa using hcc
      simp [List.count_append, hz]
  case neg =>
    rw [if_neg hip] at hprof
    by_cases hfx : VEnv.fileExists ext cfg.InstanceProfileFilePath = true
    case neg =>
      rw [if_neg hfx] at hprof
      injection hprof with hgarbage hbad
      exact absurd hbad (by simp)
    rw [if_pos hfx] at hprof
    injection hprof with hR hnil
    have hreg' : regionToAiport (Config.AWSRegion cfg') = some a := by
      rw [← hR]; exact hr
    have hlen' : ¬(List.length (Config.LogOutputs cfg') = 0) := by
      rw [← hR]; dsimp only
      split_ifs <;> first | exact h1 | simp
    have huser' : ¬(Config.UserName cfg' = "") := by rw [← hR]; exact h4
    have himg' : ¬(Config.ImageID cfg' = "") := by rw [← hR]; exact h5
    have hcond' : ¬(0 < (Config.Plugins cfg').length ∧
        ¬Config.InitScriptCreated cfg') := by
      rw [← hR]; dsimp only
      rintro ⟨hl, hnc⟩
      split_ifs at hnc with hc0
      · exact hnc rfl
      · exact hc0 ⟨hl, hnc⟩
    have hit' : ¬(Config.InstanceType cfg' = "") := by rw [← hR]; exact h6
    have hcs' : ¬(Config.ClusterSize cfg' < 1) := by rw [← hR]; exact h7
    have htag' : ¬(Config.Tag cfg' = "") := by
      rw [← hR]; dsimp only
      split_ifs <;> first | exact genTag_ne_empty _ _ _ _ | assumption
    have hcn' : ¬(Config.ClusterName cfg' = "") := by
      rw [← hR]; dsimp only
      split_ifs <;>
        first | exact append_ne_empty_right _ _ (randString_ne_empty _)
              | assumption
    have hcp' : ¬(Config.ConfigPath cfg' = "") := by
      rw [← hR]; dsimp only
      split_ifs <;> first | exact hc | assumption
    have hcpb' : Config.ConfigPathBucket cfg' =
        joinPath (Config.ClusterName cfg') "ec2config.yaml" := by rw [← hR]
    have hlpE : Config.LogOutputToUploadPath cfg' =
        joinPath (VEnv.tempDir ext) (Config.ClusterName cfg' ++ ".log") := by
      rw [← hR]
    have hlp' : Config.LogOutputToUploadPath cfg' =
        joinPath (VEnv.tempDir ext') (Config.ClusterName cfg' ++ ".log") := by
      rw [ht]; exact hlpE
    have hLO : Config.LogOutputs cfg' =
        if cfg.LogOutputs.contains (Config.LogOutputToUploadPath cfg') then
          cfg.LogOutputs
        else cfg.LogOutputs ++ [Config.LogOutputToUploadPath cfg'] := by
      rw [← hR]
    have hcont' : (Config.LogOutputs cfg').contains
        (Config.LogOutputToUploadPath cfg') = true := by
      rw [hLO]
      split_ifs with hcc
      · exact hcc
      · simp
    have hlpb' : Config.LogOutputToUploadPathBucket cfg' =
        joinPath (Config.ClusterName cfg') "ec2.log" := by rw [← hR]
    have hkn' : ¬(Config.KeyName cfg' = "") := by
      rw [← hR]; dsimp only
      split_ifs <;>
        first | exact append_ne_empty_right _ _ (randString_ne_empty _)
              | assumption
    have hkpb' : Config.KeyPathBucket cfg' =
        joinPath (Config.ClusterName cfg') "ec2.key" := by rw [← hR]
    have hkp' : ¬(Config.KeyPath cfg' = "") := by
      rw [← hR]; dsimp only
      split_ifs <;> first | exact hk | assumption
    have hfx' : VEnv.fileExists ext' (Config.InstanceProfileFilePath cfg') =
        true := by
      rw [hfe, ← hR]; exact hfx
    have hn1 : Config.InstanceProfileName cfg' =
        Config.ClusterName cfg' ++ "-instance-profile" := by rw [← hR]
    have hn2 : Config.InstanceProfileRoleName cfg' =
        Config.ClusterName cfg' ++ "-instance-profile" ++ "-role" := by
      rw [← hR]
    have hn3 : Config.InstanceProfilePolicyName cfg' =
        Config.ClusterName cfg' ++ "-instance-profile" ++ "-policy" := by
      rw [← hR]
    refine ⟨vasd_second_run ext' cfg' a hreg' hlen' huser' himg' hcond' hit'
      hcs' htag' hcn' hcp' hcpb' hlp' hcont' hlpb' hkn' hkpb' hkp'
      (Or.inr ⟨hfx', hn1, hn2, hn3⟩), ?_⟩
    intro hle
    rw [hLO]
    split_ifs with hcc
    · have hmem : Config.LogOutputToUploadPath cfg' ∈ cfg.LogOutputs := by
        simpa using hcc
      have := List.count_pos_iff.mpr hmem
      omega
    · have hz : cfg.LogOutputs.count (Config.LogOutputToUploadPath cfg') = 0 := by
        rw [List.count_eq_zero]
        simpa using hcc
      simp [List.count_append, hz]



/-- C5, counterexample.  The claim asserts the derived log-upload path
occurs exactly once after the second call.  Starting from a
configuration whose user-supplied `LogOutputs` already contains the
derived path "/tmp/x.log" twice, both finalize calls succeed and change
nothing — but the derived path occurs twice, not once: the
duplicate-detection only prevents *adding* entries. -/
theorem validate_idempotent_cex :
    (validateAndSetDefaults extDefault cfgDup).2 = none ∧
    validateAndSetDefaults extDefault
        (validateAndSetDefaults extDefault cfgDup).1 =
      ((validateAndSetDefaults extDefault cfgDup).1, none) ∧
    (Config.LogOutputs (validateAndSetDefaults extDefault
        (validateAndSetDefaults extDefault cfgDup).1).1).count
      (Config.LogOutputToUploadPath (validateAndSetDefaults extDefault
        (validateAndSetDefaults extDefault cfgDup).1).1) = 2 :=
  ⟨by rfl, by decide, by decide⟩

/-- Witness for C5's amended theorem at `defaultConfig`/`extDefault`. -/
theorem validate_idempotent_witness :
    validateAndSetDefaults extDefault
        (validateAndSetDefaults extDefault defaultConfig).1 =
      ((validateAndSetDefaults extDefault defaultConfig).1, none) ∧
    ((defaultConfig.LogOutputs.count (Config.LogOutputToUploadPath
        (validateAndSetDefaults extDefault defaultConfig).1) ≤ 1 →
      (Config.LogOutputs ((validateAndSetDefaults extDefault
        defaultConfig).1)).count (Config.LogOutputToUploadPath
        (validateAndSetDefaults extDefault defaultConfig).1) = 1)) :=
  validate_idempotent extDefault extDefault defaultConfig
    (validateAndSetDefaults extDefault defaultConfig).1 (by rfl)
    (by decide) (by decide) rfl rfl



/-- The template's post-action text splits around the `%s` verb. -/
theorem tplPost_split : tplPost = postA ++ "%s" ++ postB := rfl

/-- `Sprintf` copies a non-verb character verbatim. -/
theorem goSprintf_cons_ne (c : Char) (rest : List Char)
    (args : List (List Char)) (hc : ¬(c = '%')) :
    goSprintf (c :: rest) args = c :: goSprintf rest args := by
  rw [goSprintf.eq_def]
  simp only [if_neg hc]

/-- `Sprintf` passes a verb-free prefix through untouched. -/
theorem goSprintf_pass (pre : List Char) (rest : List Char)
    (args : List (List Char)) (h : ∀ c ∈ pre, c ≠ '%') :
    goSprintf (pre ++ rest) args = pre ++ goSprintf rest args := by
  induction pre with
  | nil => rfl
  | cons c pre ih =>
    have hc : ¬(c = '%') := h c (List.mem_cons_self c pre)
    have h' : ∀ x ∈ pre, x ≠ '%' := fun x hx => h x (List.mem_cons_of_mem c hx)
    rw [List.cons_append, goSprintf_cons_ne c _ _ hc, ih h', List.cons_append]

/-- `Sprintf` on a verb-free format with no operands is the identity. -/
theorem goSprintf_nil_args (l : List Char) (h : ∀ c ∈ l, c ≠ '%') :
    goSprintf l [] = l := by
  have h2 := goSprintf_pass l [] [] h
  rw [List.append_nil] at h2
  rw [h2]
  rw [show goSprintf [] [] = [] from rfl, List.append_nil]

/-- The `%s` verb consumes the next operand. -/
theorem goSprintf_verb_s (rest : List Char) (a : List Char)
    (args : List (List Char)) :
    goSprintf ('%' :: 's' :: rest) (a :: args) = a ++ goSprintf rest args := rfl

/-- A token starting with a brace cannot occur in (or start inside) a
brace-free prefix. -/
theorem countOcc_append_no_brace (tok pre l : List Char)
    (h : ∀ c ∈ pre, c ≠ '{') :
    countOcc ('{' :: tok) (pre ++ l) = countOcc ('{' :: tok) l := by
  induction pre with
  | nil => rfl
  | cons c pre ih =>
    have hc : ¬(c = '{') := h c (List.mem_cons_self c pre)
    have h' : ∀ x ∈ pre, x ≠ '{' := fun x hx => h x (List.mem_cons_of_mem c hx)
    have hbeq : ('{' == c) = false := by
      rw [beq_eq_false_iff_ne]
      exact fun e => hc e.symm
    rw [List.cons_append, countOcc]
    simp only [List.isPrefixOf, hbeq, Bool.false_and]
    rw [if_neg (by simp)]
    simpa using ih h'


set_option maxRecDepth 10000 in
/-- C9, amended.  For every role ARN containing neither a percent sign
nor an opening brace (true of actual AWS ARNs), the rendered ConfigMap
document embeds the ARN verbatim as the rolearn value and contains the
placeholder token `dnsToken` exactly once, uncorrupted by the template
rendering and the format substitution. -/
theorem configMapAuth_renders_token_once (arn : String)
    (hp : ∀ c ∈ arn.data, c ≠ '%') (hb : ∀ c ∈ arn.data, c ≠ '{') :
    writeConfigMapAuthDoc arn = tplPre ++ arn ++ postA ++ userLine ++ postB ∧
      countOcc dnsToken.data (writeConfigMapAuthDoc arn).data = 1 := by
  have hdata : (writeConfigMapAuthDoc arn).data =
      tplPre.data ++ (arn.data ++ (postA.data ++ (userLine.data ++ postB.data))) := by
    show (goSprintf (templExecute arn).data [userLine.data]) = _
    have e1 : (templExecute arn).data =
        tplPre.data ++ (arn.data ++ (postA.data
          ++ ('%' :: 's' :: postB.data))) := by
      show (tplPre ++ arn ++ tplPost).data = _
      rw [String.data_append, String.data_append, List.append_assoc]
      rw [show tplPost.data = postA.data ++ ('%' :: 's' :: postB.data) from rfl]
    rw [e1]
    rw [goSprintf_pass _ _ _ (by decide)]
    rw [goSprintf_pass _ _ _ hp]
    rw [goSprintf_pass _ _ _ (by decide)]
    rw [goSprintf_verb_s]
    rw [goSprintf_nil_args _ (by decide)]
  constructor
  · apply String.ext
    rw [hdata]
    rw [String.data_append, String.data_append, String.data_append,
      String.data_append]
    simp only [List.append_assoc]
  · rw [hdata]
    have hu : userLine.data =
        "username: system:node:".data ++ dnsToken.data := rfl
    rw [hu]
    have htok : dnsToken.data = '{' :: "\x7bEC2PrivateDNSName\x7d\x7d".data := rfl
    rw [htok]
    rw [show "username: system:node:".data
        ++ ('{' :: "\x7bEC2PrivateDNSName\x7d\x7d".data) ++ postB.data
      = "username: system:node:".data
        ++ (('{' :: "\x7bEC2PrivateDNSName\x7d\x7d".data) ++ postB.data)
      from List.append_assoc _ _ _]
    rw [countOcc_append_no_brace _ _ _ (by decide)]
    rw [countOcc_append_no_brace _ _ _ hb]
    rw [countOcc_append_no_brace _ _ _ (by decide)]
    rw [countOcc_append_no_brace _ _ _ (by decide)]
    decide


set_option maxRecDepth 10000 in
/-- C9, counterexample.  The claim quantifies over every role ARN
string.  For the ARN "%s", the `fmt.Sprintf` pass consumes the username
operand at the ARN's position inside the already-rendered template:
the rolearn value becomes the username line and the intended username
position renders as a missing-operand notice — the ARN is not embedded
and the document is not the well-formed rendering. -/
theorem configMapAuth_percent_cex :
    writeConfigMapAuthDoc "%s" =
        tplPre ++ userLine ++ postA ++ "%!s(MISSING)" ++ postB ∧
      ¬(writeConfigMapAuthDoc "%s" =
        tplPre ++ "%s" ++ postA ++ userLine ++ postB) :=
  ⟨by decide, by decide⟩

set_option maxRecDepth 10000 in
/-- Witness for C9's amended theorem at a realistic role ARN. -/
theorem configMapAuth_renders_token_once_witness :
    writeConfigMapAuthDoc "arn:aws:iam::123456789012:role/test-role" =
        tplPre ++ "arn:aws:iam::123456789012:role/test-role" ++ postA
          ++ userLine ++ postB ∧
      countOcc dnsToken.data (writeConfigMapAuthDoc
        "arn:aws:iam::123456789012:role/test-role").data = 1 :=
  configMapAuth_renders_token_once "arn:aws:iam::123456789012:role/test-role"
    (by decide) (by decide)

end Ec2
